import Mathlib

/-!
Verification of the zigpak repository surface: the header src/zigpak.h declares
a struct zigpak_unpack (a byte-buffer pointer and a size_t length) and two
function prototypes, zigpak_unpack_init and zigpak_unpack_set_append, whose
bodies are not part of the repository. The declarations themselves are embedded
as data below; where a claim depends on the missing bodies, the behaviour is
modelled from the specification and marked as such in the doc comment.
-/

/-- Embedding of the C types appearing in src/zigpak.h: a byte pointer
(uint8_t star), size_t, void, and the struct zigpak_unpack itself. -/
inductive CType where
  | uint8Ptr : CType
  | sizeT : CType
  | voidTy : CType
  | structZigpakUnpack : CType
deriving DecidableEq

/-- Embedding of a C function prototype: its name, return type and the list of
parameters as name-type pairs, in declaration order. -/
structure CFunDecl where
  name : String
  ret : CType
  params : List (String × CType)
deriving DecidableEq

/-- Field declarations of struct zigpak_unpack, from src/zigpak.h lines 8-11:
a uint8_t pointer named buffer and a size_t named len, in that order. -/
def zigpak_unpack_fields : List (String × CType) :=
  [("buffer", CType.uint8Ptr), ("len", CType.sizeT)]

/-- The prototype on line 13 of src/zigpak.h: struct zigpak_unpack
zigpak_unpack_init receiving a uint8_t pointer and a size_t, returning the
struct by value. -/
def zigpak_unpack_init_decl : CFunDecl :=
  ⟨"zigpak_unpack_init", CType.structZigpakUnpack,
    [("buffer", CType.uint8Ptr), ("len", CType.sizeT)]⟩

/-- The prototype on line 15 of src/zigpak.h: void zigpak_unpack_set_append
receiving a size_t olen, a uint8_t pointer and a size_t len. -/
def zigpak_unpack_set_append_decl : CFunDecl :=
  ⟨"zigpak_unpack_set_append", CType.voidTy,
    [("olen", CType.sizeT), ("buffer", CType.uint8Ptr), ("len", CType.sizeT)]⟩

/-- A byte region as seen through a uint8_t pointer: its address, together with
the ghost capacity of the allocation it points into (the spec keeps capacity
caller-managed, outside the struct). Address 0 encodes the null pointer. -/
structure Region where
  addr : Nat
  cap : Nat
deriving DecidableEq

/-- The handle type of struct zigpak_unpack from src/zigpak.h: the buffer
pointer field and the size_t len field. -/
structure zigpak_unpack where
  buffer : Region
  len : Nat
deriving DecidableEq

/-- Modelled from the spec: the body of zigpak_unpack_init is absent from the
repository (only the prototype on line 13 is given); spec section 4.1 states
the returned handle's data aliases the given region and its length equals the
given len, with non-owning reference semantics. -/
def zigpak_unpack_init (b : Region) (n : Nat) : zigpak_unpack :=
  ⟨b, n⟩

/-- Abstract program state surrounding a call: the byte stored at every
address, plus the remaining program state collapsed to one abstract value. -/
structure ProgState where
  mem : Nat → Nat
  rest : Nat

/-- Modelled from the spec: the body of zigpak_unpack_init is absent from the
repository; spec section 4.1 states its side effects are none beyond
constructing the returned value, so the call maps a program state to the same
state paired with the constructed handle. -/
def zigpak_unpack_init_st (st : ProgState) (b : Region) (n : Nat) :
    ProgState × zigpak_unpack :=
  (st, zigpak_unpack_init b n)

/-- Modelled from the spec: the body of zigpak_unpack_init is absent from the
repository; spec sections 4.1 and 7 require a faithful implementation to fail
(or assert) when the region reference is null and len is positive, so the
checked initializer returns no handle in exactly that case. -/
def zigpak_unpack_init_checked (b : Region) (n : Nat) : Option zigpak_unpack :=
  if b.addr = 0 ∧ 0 < n then none else some (zigpak_unpack_init b n)

/-- Handles reachable through the declared API used within its contract:
zigpak_unpack_init is the only declared operation producing a handle
(zigpak_unpack_set_append returns void and receives no handle), and spec
section 8 restricts init to valid regions with len at most the capacity. -/
inductive Reachable : zigpak_unpack → Prop where
  | init (b : Region) (n : Nat) (hvalid : b.addr ≠ 0) (hcap : n ≤ b.cap) :
      Reachable (zigpak_unpack_init b n)

/-- A size_t value on a platform where size_t is w bits wide: a natural number
below 2 ^ w. -/
structure SizeT (w : Nat) where
  val : Nat
  isLt : val < 2 ^ w

/-- Addition of size_t values: C unsigned arithmetic reduces the mathematical
sum modulo 2 ^ w. -/
def SizeT.add {w : Nat} (a b : SizeT w) : SizeT w :=
  ⟨(a.val + b.val) % 2 ^ w, Nat.mod_lt _ (Nat.pos_pow_of_pos w (by decide))⟩

/-- Assignment to the buffer field of a struct zigpak_unpack variable: the
variable afterwards holds the updated value. -/
def zigpak_unpack.setBuffer (h : zigpak_unpack) (b : Region) : zigpak_unpack :=
  ⟨b, h.len⟩

/-- Assignment to the len field of a struct zigpak_unpack variable: the
variable afterwards holds the updated value. -/
def zigpak_unpack.setLen (h : zigpak_unpack) (n : Nat) : zigpak_unpack :=
  ⟨h.buffer, n⟩

/-- Two local struct zigpak_unpack variables filled from two separate calls of
zigpak_unpack_init, modelled as the two components of a pair. -/
def twoHandles (b1 : Region) (n1 : Nat) (b2 : Region) (n2 : Nat) :
    zigpak_unpack × zigpak_unpack :=
  (zigpak_unpack_init b1 n1, zigpak_unpack_init b2 n2)

/-- C1: for every valid byte region b and every length n not exceeding the
capacity of b, zigpak_unpack_init b n returns a handle whose buffer field
references b and whose len field equals n. -/
theorem zigpak_unpack_init_refs_region_len (b : Region) (n : Nat)
    (hvalid : b.addr ≠ 0) (hcap : n ≤ b.cap) :
    (zigpak_unpack_init b n).buffer = b ∧ (zigpak_unpack_init b n).len = n :=
  ⟨rfl, rfl⟩

theorem zigpak_unpack_init_refs_region_len_witness :
    (zigpak_unpack_init ⟨1, 4⟩ 3).buffer = ⟨1, 4⟩ ∧
      (zigpak_unpack_init ⟨1, 4⟩ 3).len = 3 :=
  zigpak_unpack_init_refs_region_len ⟨1, 4⟩ 3 (by decide) (by decide)

/-- C2: zigpak_unpack_set_append is declared as returning void and its
parameter list is exactly a size_t prior length, a uint8_t pointer and a
size_t length; no parameter has type struct zigpak_unpack, so no handle is
passed to it. -/
theorem zigpak_unpack_set_append_signature :
    zigpak_unpack_set_append_decl.ret = CType.voidTy ∧
      zigpak_unpack_set_append_decl.params =
        [("olen", CType.sizeT), ("buffer", CType.uint8Ptr),
          ("len", CType.sizeT)] ∧
      (zigpak_unpack_set_append_decl.params.all fun p =>
        decide (p.2 ≠ CType.structZigpakUnpack)) = true :=
  ⟨rfl, rfl, by decide⟩

/-- C3: neither declared function has a failure channel: zigpak_unpack_init
returns the plain struct zigpak_unpack, whose only fields are the buffer
pointer and the length, and zigpak_unpack_set_append returns void, so neither
prototype can report an error to its caller. -/
theorem zigpak_no_error_channel_declared :
    zigpak_unpack_init_decl.ret = CType.structZigpakUnpack ∧
      zigpak_unpack_fields =
        [("buffer", CType.uint8Ptr), ("len", CType.sizeT)] ∧
      zigpak_unpack_set_append_decl.ret = CType.voidTy :=
  ⟨rfl, rfl, rfl⟩

/-- C4: for every valid byte region b, zigpak_unpack_init b 0 returns a handle
whose len field equals 0. -/
theorem zigpak_unpack_init_zero_len (b : Region) (hvalid : b.addr ≠ 0) :
    (zigpak_unpack_init b 0).len = 0 :=
  rfl

theorem zigpak_unpack_init_zero_len_witness :
    (zigpak_unpack_init ⟨1, 4⟩ 0).len = 0 :=
  zigpak_unpack_init_zero_len ⟨1, 4⟩ (by decide)

/-- C5: calling zigpak_unpack_init twice in sequence with the same buffer and
length arguments, threading the program state of the first call into the
second, yields two handles with equal buffer and len fields. -/
theorem zigpak_unpack_init_deterministic (st : ProgState) (b : Region)
    (n : Nat) :
    ((zigpak_unpack_init_st st b n).2.buffer =
        (zigpak_unpack_init_st (zigpak_unpack_init_st st b n).1 b n).2.buffer) ∧
      ((zigpak_unpack_init_st st b n).2.len =
        (zigpak_unpack_init_st (zigpak_unpack_init_st st b n).1 b n).2.len) :=
  ⟨rfl, rfl⟩

/-- C6: zigpak_unpack_init leaves the whole program state unchanged: the state
after the call equals the state before it, and in particular every byte of the
caller-supplied region still holds its old value. -/
theorem zigpak_unpack_init_no_side_effects (st : ProgState) (b : Region)
    (n : Nat) :
    (zigpak_unpack_init_st st b n).1 = st ∧
      ∀ i : Nat,
        (zigpak_unpack_init_st st b n).1.mem (b.addr + i) =
          st.mem (b.addr + i) :=
  ⟨rfl, fun _ => rfl⟩

/-- C7: whenever the region reference is null and the requested length is
positive, the checked initializer modelled from the spec fails: it returns no
handle at all. -/
theorem zigpak_unpack_init_checked_null_fails (b : Region) (n : Nat)
    (hnull : b.addr = 0) (hpos : 0 < n) :
    zigpak_unpack_init_checked b n = none := by
  unfold zigpak_unpack_init_checked
  rw [if_pos ⟨hnull, hpos⟩]

theorem zigpak_unpack_init_checked_null_fails_witness :
    zigpak_unpack_init_checked ⟨0, 4⟩ 3 = none :=
  zigpak_unpack_init_checked_null_fails ⟨0, 4⟩ 3 (by decide) (by decide)

/-- C8: every reachable zigpak_unpack handle satisfies the data-model
invariant: its len field never exceeds the capacity of the region referenced
by its buffer field. -/
theorem zigpak_reachable_len_le_cap (h : zigpak_unpack) (hr : Reachable h) :
    h.len ≤ h.buffer.cap := by
  cases hr with
  | init b n hvalid hcap => exact hcap

theorem zigpak_reachable_len_le_cap_witness :
    (zigpak_unpack_init ⟨1, 4⟩ 3).len ≤ (zigpak_unpack_init ⟨1, 4⟩ 3).buffer.cap :=
  zigpak_reachable_len_le_cap (zigpak_unpack_init ⟨1, 4⟩ 3)
    (Reachable.init ⟨1, 4⟩ 3 (by decide) (by decide))

/-- C9: the len field of struct zigpak_unpack and the olen and len parameters
of zigpak_unpack_set_append are declared with type size_t; a size_t value is a
non-negative integer below 2 ^ w for the platform width w, and size_t addition
reduces the sum modulo 2 ^ w. -/
theorem zigpak_size_t_lengths_unsigned_wrap :
    zigpak_unpack_fields = [("buffer", CType.uint8Ptr), ("len", CType.sizeT)] ∧
      zigpak_unpack_set_append_decl.params =
        [("olen", CType.sizeT), ("buffer", CType.uint8Ptr),
          ("len", CType.sizeT)] ∧
      (∀ (w : Nat) (v : SizeT w), (0 : Int) ≤ (v.val : Int) ∧ v.val < 2 ^ w) ∧
      ∀ (w : Nat) (a b : SizeT w),
        ( SizeT.add a b).val = (a.val + b.val) % 2 ^ w :=
  ⟨rfl, rfl, fun _ v => ⟨Int.natCast_nonneg v.val, v.isLt⟩, fun _ _ _ => rfl⟩

/-- C10: zigpak_unpack_init returns the struct by value, so handles obtained
from separate calls are independent copies: assigning to the buffer or len
field of either variable leaves both fields of the other variable unchanged. -/
theorem zigpak_by_value_handles_independent (b1 : Region) (n1 : Nat)
    (b2 : Region) (n2 : Nat) (b : Region) (n : Nat) :
    (((twoHandles b1 n1 b2 n2).1.setLen n, (twoHandles b1 n1 b2 n2).2).2 =
        zigpak_unpack_init b2 n2) ∧
      (((twoHandles b1 n1 b2 n2).1.setBuffer b, (twoHandles b1 n1 b2 n2).2).2 =
        zigpak_unpack_init b2 n2) ∧
      (((twoHandles b1 n1 b2 n2).1, (twoHandles b1 n1 b2 n2).2.setLen n).1 =
        zigpak_unpack_init b1 n1) ∧
      (((twoHandles b1 n1 b2 n2).1, (twoHandles b1 n1 b2 n2).2.setBuffer b).1 =
        zigpak_unpack_init b1 n1) :=
  ⟨rfl, rfl, rfl, rfl⟩
